import Mathlib

/-!
Shallow embedding of src/index.tsx of the Future-Innovations-Showcase-2050
repository: the two-phase generation pipeline (the fetchInnovations
callback, lines 26-82) and the application state machine formed by the
App, InnovationCard and Modal components.  External effects (the
GoogleGenAI client construction, the generateContent call, JSON.parse of
the response text, and each generateImages call) are modelled by an
environment oracle recording the outcome of each external interaction;
everything downstream of those outcomes follows the source code.
-/

/-- A JavaScript JSON value, as produced by JSON.parse (line 53).
Numbers are modelled as integers; object fields are listed with distinct
keys in insertion order. -/
inductive Json where
  | null : Json
  | bool (b : Bool) : Json
  | num (n : Int) : Json
  | str (s : String) : Json
  | arr (elems : List Json) : Json
  | obj (fields : List (String × Json)) : Json

/-- Lookup of a key among the fields of an object value. -/
def getProp (fields : List (String × Json)) (key : String) : Option Json :=
  match fields with
  | [] => none
  | (k, v) :: rest => if k = key then some v else getProp rest key

/-- A JavaScript runtime exception thrown inside the try block of
fetchInnovations and caught on line 76. -/
inductive JsError where
  | typeError : JsError
  | apiError : JsError

/-- JavaScript property access o.key, as used on the parsed ideas on
lines 60, 68 and 69: access on null throws a TypeError, access on an
object yields the field value or undefined (modelled as none), and
access on any other primitive or on an array yields undefined for the
keys used here. -/
def jsGet (j : Json) (key : String) : Except JsError (Option Json) :=
  match j with
  | .null => .error .typeError
  | .obj fields => .ok (getProp fields key)
  | _ => .ok none

/-- The image.imageBytes payload of one generated image (line 64). -/
structure ImageData where
  imageBytes : String

/-- One element of generatedImages (line 64). -/
structure GeneratedImage where
  image : ImageData

/-- A successful response of ai.models.generateImages (lines 58-62). -/
structure ImagesResponse where
  generatedImages : List GeneratedImage

/-- Observable outcome of lines 30-53: constructing the GoogleGenAI
client (line 30), awaiting ai.models.generateContent (lines 33-51), and
running JSON.parse on the response text (line 53).  ctorError covers a
configuration failure at the client boundary, callError a rejected
text-generation call, parseError a response text that is not valid JSON,
and parsed the JSON value obtained otherwise. -/
inductive TextOutcome where
  | ctorError : TextOutcome
  | callError : TextOutcome
  | parseError : TextOutcome
  | parsed (j : Json) : TextOutcome

/-- Environment oracle for one pipeline invocation: the text-generation
outcome, and for the image fan-out the outcome of the i-th
generateImages call (calls are identified by their position in the idea
list) as a function of the prompt value passed; none means that call
rejects. -/
structure Env where
  textOutcome : TextOutcome
  imageGen : Nat → Option Json → Option ImagesResponse

/-- The InnovationWithImage record built on lines 67-71.  The code casts
the parsed JSON without runtime validation, so title and description
hold whatever JavaScript property access returned (none models
undefined). -/
structure DisplayItem where
  title : Option Json
  description : Option Json
  imageUrl : String

/-- The async arrow function of lines 57-72 applied to one idea: read
idea.image_prompt, await generateImages, read
generatedImages[0].image.imageBytes (when the list is empty the element
access yields undefined and the .image access throws), build the data
URI, and read idea.title and idea.description into the returned
record. -/
def imageTask (env : Env) (i : Nat) (idea : Json) : Except JsError DisplayItem :=
  match jsGet idea "image_prompt" with
  | .error e => .error e
  | .ok prompt =>
    match env.imageGen i prompt with
    | none => .error .apiError
    | some resp =>
      match resp.generatedImages with
      | [] => .error .typeError
      | g :: _ =>
        match jsGet idea "title" with
        | .error e => .error e
        | .ok t =>
          match jsGet idea "description" with
          | .error e => .error e
          | .ok d =>
            .ok { title := t, description := d,
                  imageUrl := "data:image/jpeg;base64," ++ g.image.imageBytes }

/-- Promise.all over innovationIdeas.map (lines 56-73): it succeeds with
the item list in the original idea order exactly when every task
succeeds, and fails when any task fails, regardless of the completion
timing of the concurrent calls.  start is the position of the first
listed idea within the overall fan-out. -/
def mapImages (env : Env) (start : Nat) (ideas : List Json) :
    Except JsError (List DisplayItem) :=
  match ideas with
  | [] => .ok []
  | idea :: rest =>
    match imageTask env start idea with
    | .error e => .error e
    | .ok item =>
      match mapImages env (start + 1) rest with
      | .error e => .error e
      | .ok items => .ok (item :: items)

/-- Overall outcome of the try block of lines 29-75. -/
inductive PipelineResult where
  | success (items : List DisplayItem) : PipelineResult
  | failure : PipelineResult

/-- The try block of fetchInnovations (lines 29-75): any thrown error is
caught on line 76, so an invocation either succeeds with the merged item
list or fails.  A parsed value that is not an array fails because
innovationIdeas.map is then not a function (line 57). -/
def runPipeline (env : Env) : PipelineResult :=
  match env.textOutcome with
  | .ctorError => .failure
  | .callError => .failure
  | .parseError => .failure
  | .parsed j =>
    match j with
    | .arr ideas =>
      match mapImages env 0 ideas with
      | .ok items => .success items
      | .error _ => .failure
    | _ => .failure

/-- React state of the App component (lines 21-24). -/
structure AppState where
  innovations : List DisplayItem
  loading : Bool
  error : Option String
  selectedInnovation : Option DisplayItem

/-- The fixed user-facing error string set on line 78. -/
def errorMessage : String :=
  "Failed to fetch innovations from the future. Please try again."

/-- Synchronous prefix of fetchInnovations (lines 27-28): setLoading
true, then setError null; both updates land in one React batch. -/
def fetchStart (s : AppState) : AppState :=
  { s with loading := true, error := none }

/-- State updates applied when an invocation settles: on success,
setInnovations followed by the finally setLoading false (lines 75 and
80); on failure, setError with the fixed message followed by setLoading
false (lines 78 and 80).  Each pair runs in one continuation after the
awaited promises resolve, so it lands in one React batch. -/
def applySettle (r : PipelineResult) (s : AppState) : AppState :=
  match r with
  | .success items => { s with innovations := items, loading := false }
  | .failure => { s with error := some errorMessage, loading := false }

/-- End-to-end effect of one fetchInnovations invocation (lines 26-82)
on a state, when no user interaction interleaves between its start and
its settling. -/
def fetchInnovations (env : Env) (s : AppState) : AppState :=
  applySettle (runPipeline env) (fetchStart s)

/-- handleOpenModal (lines 93-95), invoked from the onCardClick wiring of
line 124. -/
def handleOpenModal (item : DisplayItem) (s : AppState) : AppState :=
  { s with selectedInnovation := some item }

/-- handleCloseModal (lines 97-99), invoked from the modal overlay click,
the close button and the Escape key handler (lines 167-181). -/
def handleCloseModal (s : AppState) : AppState :=
  { s with selectedInnovation := none }

/-- A configuration of the running App: the React state plus the results
of the pipeline invocations currently in flight, in the order they were
triggered. -/
structure Config where
  state : AppState
  pending : List PipelineResult

/-- User-interface and completion events driving the App. -/
inductive AppAction where
  | settle : AppAction
  | regenerate (env : Env) : AppAction
  | cardClick (item : DisplayItem) : AppAction
  | cardKey (item : DisplayItem) (key : String) : AppAction
  | overlayClick : AppAction
  | closeButton : AppAction
  | escapeKey : AppAction

/-- One transition of the App.  settle: some in-flight invocation
resolves and its state updates are applied (lines 75-81).  regenerate:
the button of line 105 fires handleRegenerate (lines 88-91); it is
disabled while loading, clears the items, and starts a new invocation.
cardClick and cardKey: a rendered card is activated by click or by the
Enter or Space key (lines 145-146); cards exist only when the grid is
rendered (not loading, no error, line 110-128) and only for items of the
current list.  overlayClick, closeButton and escapeKey: the three close
paths of the modal (lines 167-181), available only while the modal is
open. -/
inductive Step : Config → AppAction → Config → Prop where
  | settle (c : Config) (r : PipelineResult) (pre post : List PipelineResult)
      (hp : c.pending = pre ++ r :: post) :
      Step c .settle
        { state := applySettle r c.state, pending := pre ++ post }
  | regenerate (c : Config) (env : Env) (hl : c.state.loading = false) :
      Step c (.regenerate env)
        { state := fetchStart { c.state with innovations := [] },
          pending := c.pending ++ [runPipeline env] }
  | cardClick (c : Config) (item : DisplayItem)
      (hl : c.state.loading = false) (he : c.state.error = none)
      (hm : item ∈ c.state.innovations) :
      Step c (.cardClick item)
        { state := handleOpenModal item c.state, pending := c.pending }
  | cardKey (c : Config) (item : DisplayItem) (key : String)
      (hl : c.state.loading = false) (he : c.state.error = none)
      (hm : item ∈ c.state.innovations)
      (hk : key = "Enter" ∨ key = " ") :
      Step c (.cardKey item key)
        { state := handleOpenModal item c.state, pending := c.pending }
  | overlayClick (c : Config) (ho : c.state.selectedInnovation ≠ none) :
      Step c .overlayClick
        { state := handleCloseModal c.state, pending := c.pending }
  | closeButton (c : Config) (ho : c.state.selectedInnovation ≠ none) :
      Step c .closeButton
        { state := handleCloseModal c.state, pending := c.pending }
  | escapeKey (c : Config) (ho : c.state.selectedInnovation ≠ none) :
      Step c .escapeKey
        { state := handleCloseModal c.state, pending := c.pending }

/-- Initial React state (lines 21-24). -/
def initialState : AppState :=
  { innovations := [], loading := true, error := none,
    selectedInnovation := none }

/-- Configuration right after mount: the effect of lines 84-86 has
already started the first invocation. -/
def mountConfig (env : Env) : Config :=
  { state := fetchStart initialState, pending := [runPipeline env] }

/-- Configurations reachable from the mounted App by the defined
transitions. -/
inductive Reachable : Config → Prop where
  | mount (env : Env) : Reachable (mountConfig env)
  | step (c : Config) (a : AppAction) (c' : Config)
      (hR : Reachable c) (hS : Step c a c') : Reachable c'

/-- Inductive invariant of the reachable configurations: at most one
invocation is in flight; while one is in flight the state is the loading
state with no error and no items; and items are only ever present in a
settled, error-free state. -/
def AppInv (c : Config) : Prop :=
  c.pending.length ≤ 1 ∧
  (c.pending ≠ [] → c.state.loading = true ∧ c.state.error = none ∧
      c.state.innovations = []) ∧
  (c.state.innovations ≠ [] → c.state.loading = false ∧ c.state.error = none)

/-- Schema required of the text response by the request configuration of
lines 38-49, following the specification: an array of objects, each with
string fields title, description and image_prompt.  Used to compare the
specified client behaviour with the implemented one; the implementation
itself never checks this (line 53 is a plain JSON.parse with an
unchecked type assertion). -/
def isStringField (j : Json) (key : String) : Bool :=
  match jsGet j key with
  | .ok (some (.str _)) => true
  | _ => false

/-- See isStringField: the array-of-objects response schema of lines
38-49, as the specification describes it. -/
def matchesResponseSchema (j : Json) : Bool :=
  match j with
  | .arr elems =>
      elems.all fun e =>
        isStringField e "title" && isStringField e "description" &&
          isStringField e "image_prompt"
  | _ => false

/-- A well-formed idea object, used as concrete input. -/
def ideaSample : Json :=
  .obj [("title", .str "t"), ("description", .str "d"),
        ("image_prompt", .str "p")]

/-- A second well-formed idea object, used as concrete input. -/
def ideaSample2 : Json :=
  .obj [("title", .str "t2"), ("description", .str "d2"),
        ("image_prompt", .str "p2")]

/-- An image response holding one generated image, used as concrete
input. -/
def respSample : ImagesResponse :=
  { generatedImages := [{ image := { imageBytes := "IMG" } }] }

/-- An image oracle on which every call succeeds with respSample. -/
def okImageGen : Nat → Option Json → Option ImagesResponse :=
  fun _ _ => some respSample

/-- Environment: one well-formed idea, all image calls succeed. -/
def envSample : Env :=
  { textOutcome := .parsed (.arr [ideaSample]), imageGen := okImageGen }

/-- Environment: two well-formed ideas, all image calls succeed. -/
def envTwo : Env :=
  { textOutcome := .parsed (.arr [ideaSample, ideaSample2]),
    imageGen := okImageGen }

/-- Environment: an empty idea array, all image calls succeed. -/
def envEmpty : Env :=
  { textOutcome := .parsed (.arr []), imageGen := okImageGen }

/-- Environment: the text-generation call rejects. -/
def envCallError : Env :=
  { textOutcome := .callError, imageGen := okImageGen }

/-- Environment: the response text is not valid JSON. -/
def envParseError : Env :=
  { textOutcome := .parseError, imageGen := okImageGen }

/-- Environment: the response parses to a JSON string, not an array. -/
def envNotArray : Env :=
  { textOutcome := .parsed (.str "hello"), imageGen := okImageGen }

/-- Environment: one well-formed idea, but every image call rejects. -/
def envImageFail : Env :=
  { textOutcome := .parsed (.arr [ideaSample]), imageGen := fun _ _ => none }

/-- An idea object violating the response schema: its title is the
number 1 rather than a string. -/
def schemaViolatingIdea : Json :=
  .obj [("title", .num 1), ("description", .str "d"),
        ("image_prompt", .str "p")]

/-- Environment: the response parses to an array containing
schemaViolatingIdea, and all image calls succeed. -/
def envSchemaViolation : Env :=
  { textOutcome := .parsed (.arr [schemaViolatingIdea]),
    imageGen := okImageGen }

/-- The display item the pipeline builds from ideaSample under
okImageGen. -/
def itemSample : DisplayItem :=
  { title := some (.str "t"), description := some (.str "d"),
    imageUrl := "data:image/jpeg;base64,IMG" }

/-- The display item the pipeline builds from ideaSample2 under
okImageGen. -/
def itemSample2 : DisplayItem :=
  { title := some (.str "t2"), description := some (.str "d2"),
    imageUrl := "data:image/jpeg;base64,IMG" }

/-- A settled configuration holding one loaded item. -/
def loadedConfig : Config :=
  { state := { innovations := [itemSample], loading := false, error := none,
               selectedInnovation := none },
    pending := [] }

/-- loadedConfig with the modal open on its item. -/
def openedConfig : Config :=
  { state := { innovations := [itemSample], loading := false, error := none,
               selectedInnovation := some itemSample },
    pending := [] }

/-- A settled, error-free configuration with an empty gallery. -/
def emptyLoadedConfig : Config :=
  { state := { innovations := [], loading := false, error := none,
               selectedInnovation := none },
    pending := [] }

/-- Target configuration of a regenerate step taken from loadedConfig
with envSample. -/
def regenConfig : Config :=
  { state := fetchStart { loadedConfig.state with innovations := [] },
    pending := loadedConfig.pending ++ [runPipeline envSample] }

theorem imageTask_ok_inv (env : Env) (i : Nat) (idea : Json)
    (item : DisplayItem) (h : imageTask env i idea = .ok item) :
    jsGet idea "title" = .ok item.title ∧
    jsGet idea "description" = .ok item.description := by
  unfold imageTask at h
  split at h
  · exact absurd h (by simp)
  · split at h
    · exact absurd h (by simp)
    · split at h
      · exact absurd h (by simp)
      · split at h
        · exact absurd h (by simp)
        · split at h
          · exact absurd h (by simp)
          · cases h
            exact ⟨by assumption, by assumption⟩

theorem mapImages_ok_length (env : Env) (ideas : List Json) :
    ∀ (start : Nat) (items : List DisplayItem),
      mapImages env start ideas = .ok items → items.length = ideas.length := by
  induction ideas with
  | nil =>
    intro start items h
    unfold mapImages at h
    cases h
    rfl
  | cons idea rest ih =>
    intro start items h
    unfold mapImages at h
    split at h
    · exact absurd h (by simp)
    · split at h
      · exact absurd h (by simp)
      · rename_i items2 hrest
        cases h
        simp [ih (start + 1) _ hrest]

theorem mapImages_ok_get (env : Env) (ideas : List Json) :
    ∀ (start : Nat) (items : List DisplayItem),
      mapImages env start ideas = .ok items →
      ∀ (i : Nat) (h1 : i < ideas.length) (h2 : i < items.length),
        imageTask env (start + i) (ideas.get ⟨i, h1⟩) =
          .ok (items.get ⟨i, h2⟩) := by
  induction ideas with
  | nil =>
    intro start items _ i h1 _
    exact absurd h1 (by simp)
  | cons idea rest ih =>
    intro start items h i h1 h2
    unfold mapImages at h
    split at h
    · exact absurd h (by simp)
    · rename_i item hitem
      split at h
      · exact absurd h (by simp)
      · rename_i items2 hrest
        cases h
        match i with
        | 0 => simpa using hitem
        | Nat.succ j =>
          have := ih (start + 1) _ hrest j (by simpa using h1)
            (by simpa using h2)
          simpa [Nat.add_assoc, Nat.add_comm 1 j] using this

theorem mapImages_all_ok (env : Env) (ideas : List Json) :
    ∀ (start : Nat),
      (∀ (i : Nat) (h : i < ideas.length),
        ∃ item, imageTask env (start + i) (ideas.get ⟨i, h⟩) = .ok item) →
      ∃ items, mapImages env start ideas = .ok items := by
  induction ideas with
  | nil => intro start _; exact ⟨[], rfl⟩
  | cons idea rest ih =>
    intro start hall
    obtain ⟨item, hitem⟩ := hall 0 (by simp)
    obtain ⟨items, hitems⟩ := ih (start + 1) (by
      intro i h
      have := hall (i + 1) (by simpa using h)
      simpa [Nat.add_assoc, Nat.add_comm 1 i] using this)
    refine ⟨item :: items, ?_⟩
    unfold mapImages
    rw [show imageTask env start idea = .ok item by simpa using hitem, hitems]

theorem reachable_appInv (c : Config) (h : Reachable c) : AppInv c := by
  induction h with
  | mount env =>
    refine ⟨by simp [mountConfig], ?_, ?_⟩
    · intro _; exact ⟨rfl, rfl, rfl⟩
    · intro hne; exact absurd rfl hne
  | step c a c' hR hS ih =>
    obtain ⟨h1, h2, h3⟩ := ih
    cases hS with
    | settle r pre post hp =>
      cases pre with
      | cons x xs => rw [hp] at h1; simp at h1
      | nil =>
        cases post with
        | cons y ys => rw [hp] at h1; simp at h1
        | nil =>
          obtain ⟨hl, he, hi⟩ := h2 (by rw [hp]; simp)
          refine ⟨by simp, ?_, ?_⟩
          · intro hne; exact absurd rfl hne
          · cases r with
            | success items => intro _; exact ⟨rfl, he⟩
            | failure => intro hne; exact absurd hi hne
    | regenerate env hl =>
      have hp : c.pending = [] := by
        by_contra hne
        have hload := (h2 hne).1
        rw [hl] at hload
        exact Bool.noConfusion hload
      refine ⟨by simp [hp], ?_, ?_⟩
      · intro _; exact ⟨rfl, rfl, rfl⟩
      · intro hne; exact absurd rfl hne
    | cardClick item hl he hm =>
      exact ⟨h1, fun hne => absurd (h2 hne).1 (by simp [hl]),
             fun hne => h3 hne⟩
    | cardKey item key hl he hm hk =>
      exact ⟨h1, fun hne => absurd (h2 hne).1 (by simp [hl]),
             fun hne => h3 hne⟩
    | overlayClick ho =>
      exact ⟨h1, fun hne => h2 hne, fun hne => h3 hne⟩
    | closeButton ho =>
      exact ⟨h1, fun hne => h2 hne, fun hne => h3 hne⟩
    | escapeKey ho =>
      exact ⟨h1, fun hne => h2 hne, fun hne => h3 hne⟩

/-- C1: for every successful pipeline invocation, the number of
DisplayItems produced equals the number of ideas parsed in Step 1, and
the merge preserves the Step 1 order: item i carries exactly the title
and description read from idea i.  Completion order of the concurrent
image calls cannot influence this: each fan-out slot is keyed by its
position in the idea list. -/
theorem pipeline_count_and_order (env : Env) (ideas : List Json)
    (items : List DisplayItem)
    (ht : env.textOutcome = .parsed (.arr ideas))
    (hs : runPipeline env = .success items) :
    items.length = ideas.length ∧
    ∀ (i : Nat) (h1 : i < ideas.length) (h2 : i < items.length),
      jsGet (ideas.get ⟨i, h1⟩) "title" = .ok (items.get ⟨i, h2⟩).title ∧
      jsGet (ideas.get ⟨i, h1⟩) "description" =
        .ok (items.get ⟨i, h2⟩).description := by
  simp only [runPipeline, ht] at hs
  revert hs
  cases hm : mapImages env 0 ideas with
  | error e => intro hs; simp at hs
  | ok items2 =>
    intro hs
    simp at hs
    subst hs
    constructor
    · exact mapImages_ok_length env ideas 0 items2 hm
    · intro i h1 h2
      have htask := mapImages_ok_get env ideas 0 items2 hm i h1 h2
      rw [Nat.zero_add] at htask
      exact imageTask_ok_inv env i _ _ htask

/-- Witness for pipeline_count_and_order at a concrete environment with
one well-formed idea. -/
theorem pipeline_count_and_order_witness :
    [itemSample].length = [ideaSample].length ∧
    ∀ (i : Nat) (h1 : i < [ideaSample].length) (h2 : i < [itemSample].length),
      jsGet ([ideaSample].get ⟨i, h1⟩) "title" =
        .ok ([itemSample].get ⟨i, h2⟩).title ∧
      jsGet ([ideaSample].get ⟨i, h1⟩) "description" =
        .ok ([itemSample].get ⟨i, h2⟩).description :=
  pipeline_count_and_order envSample [ideaSample] [itemSample] rfl rfl

/-- C2: if any single image-generation task of Step 2 fails, the whole
invocation fails, and its settling stores no item list: it only sets the
fixed error string and clears loading, leaving the items untouched. -/
theorem imageFail_failsPipeline (env : Env) (ideas : List Json) (i : Nat)
    (h : i < ideas.length) (e : JsError)
    (ht : env.textOutcome = .parsed (.arr ideas))
    (hf : imageTask env i (ideas.get ⟨i, h⟩) = .error e) :
    runPipeline env = .failure ∧
    ∀ s, applySettle (runPipeline env) s =
      { s with error := some errorMessage, loading := false } := by
  have hfail : runPipeline env = .failure := by
    simp only [runPipeline, ht]
    cases hm : mapImages env 0 ideas with
    | error e2 => simp
    | ok items =>
      have hlen := mapImages_ok_length env ideas 0 items hm
      have htask := mapImages_ok_get env ideas 0 items hm i h (by omega)
      rw [Nat.zero_add, hf] at htask
      exact absurd htask (by simp)
  exact ⟨hfail, fun s => by rw [hfail]; rfl⟩

/-- Witness for imageFail_failsPipeline: one well-formed idea whose
image call rejects. -/
theorem imageFail_failsPipeline_witness :
    runPipeline envImageFail = .failure ∧
    ∀ s, applySettle (runPipeline envImageFail) s =
      { s with error := some errorMessage, loading := false } :=
  imageFail_failsPipeline envImageFail [ideaSample] 0 (by simp)
    .apiError rfl rfl

/-- C3 counterexample: a response body that is well-formed JSON but
violates the required schema (the title of its only element is the
number 1, not a string) does not fail the invocation.  Line 53 parses
without any schema validation, so with all image calls succeeding the
pipeline succeeds, carrying the non-string title through. -/
theorem schemaViolation_not_failing :
    matchesResponseSchema (.arr [schemaViolatingIdea]) = false ∧
    envSchemaViolation.textOutcome = .parsed (.arr [schemaViolatingIdea]) ∧
    runPipeline envSchemaViolation =
      .success [{ title := some (.num 1), description := some (.str "d"),
                  imageUrl := "data:image/jpeg;base64,IMG" }] :=
  ⟨rfl, rfl, rfl⟩

/-- C3 amended: a response body that is not valid JSON fails the
invocation, as does a body that parses to a JSON value that is not an
array (its .map is then not a function); but an array whose elements
violate the per-object schema is not checked client-side and does not by
itself fail the invocation. -/
theorem parseFailure_failsPipeline (env : Env) :
    (env.textOutcome = .parseError → runPipeline env = .failure) ∧
    (∀ j, env.textOutcome = .parsed j → (∀ elems, j ≠ .arr elems) →
      runPipeline env = .failure) := by
  constructor
  · intro h; simp [runPipeline, h]
  · intro j h hne
    cases j with
    | arr elems => exact absurd rfl (hne elems)
    | null => simp [runPipeline, h]
    | bool b => simp [runPipeline, h]
    | num n => simp [runPipeline, h]
    | str s => simp [runPipeline, h]
    | obj fields => simp [runPipeline, h]

/-- Witness for parseFailure_failsPipeline: an invalid-JSON response and
a valid-JSON non-array response. -/
theorem parseFailure_failsPipeline_witness :
    runPipeline envParseError = .failure ∧
    runPipeline envNotArray = .failure :=
  ⟨(parseFailure_failsPipeline envParseError).1 rfl,
   (parseFailure_failsPipeline envNotArray).2 (.str "hello") rfl
     (fun _ hcontra => Json.noConfusion hcontra)⟩

/-- C4: any error cause (configuration, transport or schema) makes the
invocation fail; a failed invocation sets the error field to the one
fixed user-facing string; and loading is false after any invocation
settles, successful or failed. -/
theorem settle_error_and_loading :
    (∀ env, env.textOutcome = .ctorError ∨ env.textOutcome = .callError ∨
        env.textOutcome = .parseError → runPipeline env = .failure) ∧
    (∀ env s, runPipeline env = .failure →
      fetchInnovations env s =
        { s with loading := false, error := some errorMessage }) ∧
    (∀ r s, (applySettle r s).loading = false) := by
  refine ⟨?_, ?_, ?_⟩
  · intro env h
    rcases h with h | h | h <;> simp [runPipeline, h]
  · intro env s h
    unfold fetchInnovations
    rw [h]
    rfl
  · intro r s
    cases r <;> rfl

/-- Witness for settle_error_and_loading: a rejected text-generation
call settles into the fixed error string with loading cleared. -/
theorem settle_error_and_loading_witness :
    fetchInnovations envCallError initialState =
      { initialState with loading := false, error := some errorMessage } :=
  settle_error_and_loading.2.1 envCallError initialState
    (settle_error_and_loading.1 envCallError (Or.inr (Or.inl rfl)))

/-- C5: in every configuration reachable from the mounted initial state
by the defined transitions, the item list is non-empty only when loading
is false and error is none. -/
theorem items_only_when_settled (c : Config) (h : Reachable c)
    (hne : c.state.innovations ≠ []) :
    c.state.loading = false ∧ c.state.error = none :=
  (reachable_appInv c h).2.2 hne

/-- Witness for items_only_when_settled: the configuration reached by
mounting with envSample and letting the invocation settle. -/
theorem items_only_when_settled_witness :
    loadedConfig.state.loading = false ∧ loadedConfig.state.error = none :=
  items_only_when_settled loadedConfig
    (Reachable.step (mountConfig envSample) .settle loadedConfig
      (Reachable.mount envSample)
      (Step.settle (mountConfig envSample) (runPipeline envSample) [] [] rfl))
    (List.cons_ne_nil itemSample [])

/-- C6: activating a card by click or by the Enter or Space key sets the
selection to exactly that card item; each of the three close actions
(overlay background click, close button, Escape key) resets the
selection to none; and no other transition changes the selection. -/
theorem selection_transitions :
    (∀ c c' item, Step c (.cardClick item) c' →
        c'.state.selectedInnovation = some item) ∧
    (∀ c c' item key, Step c (.cardKey item key) c' →
        c'.state.selectedInnovation = some item ∧
          (key = "Enter" ∨ key = " ")) ∧
    (∀ c c', Step c .overlayClick c' → c'.state.selectedInnovation = none) ∧
    (∀ c c', Step c .closeButton c' → c'.state.selectedInnovation = none) ∧
    (∀ c c', Step c .escapeKey c' → c'.state.selectedInnovation = none) ∧
    (∀ c a c', Step c a c' →
      c'.state.selectedInnovation = c.state.selectedInnovation ∨
      (∃ item, (a = .cardClick item ∨ ∃ key, a = .cardKey item key) ∧
          c'.state.selectedInnovation = some item) ∨
      ((a = .overlayClick ∨ a = .closeButton ∨ a = .escapeKey) ∧
          c'.state.selectedInnovation = none)) := by
  refine ⟨?_, ?_, ?_, ?_, ?_, ?_⟩
  · intro c c' item h; cases h; rfl
  · intro c c' item key h
    cases h with
    | cardKey _ _ _ _ _ hk => exact ⟨rfl, hk⟩
  · intro c c' h; cases h; rfl
  · intro c c' h; cases h; rfl
  · intro c c' h; cases h; rfl
  · intro c a c' h
    cases h with
    | settle r pre post hp => left; cases r <;> rfl
    | regenerate env hl => left; rfl
    | cardClick item hl he hm => right; left; exact ⟨item, Or.inl rfl, rfl⟩
    | cardKey item key hl he hm hk =>
      right; left; exact ⟨item, Or.inr ⟨key, rfl⟩, rfl⟩
    | overlayClick ho => right; right; exact ⟨Or.inl rfl, rfl⟩
    | closeButton ho => right; right; exact ⟨Or.inr (Or.inl rfl), rfl⟩
    | escapeKey ho => right; right; exact ⟨Or.inr (Or.inr rfl), rfl⟩

/-- Witness for selection_transitions: clicking the single loaded card
selects exactly that item. -/
theorem selection_transitions_witness :
    openedConfig.state.selectedInnovation = some itemSample :=
  selection_transitions.1 loadedConfig openedConfig itemSample
    (Step.cardClick loadedConfig itemSample rfl rfl (List.Mem.head []))

/-- C7: the regenerate control only fires while loading is false, and
firing it clears the items, enters the loading state, and starts a fresh
invocation. -/
theorem regenerate_guard_and_clean_slate (c : Config) (env : Env)
    (c' : Config) (h : Step c (.regenerate env) c') :
    c.state.loading = false ∧
    c'.state.innovations = [] ∧
    c'.state.loading = true ∧
    c'.state.error = none ∧
    c'.pending = c.pending ++ [runPipeline env] := by
  cases h with
  | regenerate _ hl => exact ⟨hl, rfl, rfl, rfl, rfl⟩

/-- Witness for regenerate_guard_and_clean_slate: regenerating from the
loaded configuration. -/
theorem regenerate_guard_and_clean_slate_witness :
    loadedConfig.state.loading = false ∧
    regenConfig.state.innovations = [] ∧
    regenConfig.state.loading = true ∧
    regenConfig.state.error = none ∧
    regenConfig.pending = loadedConfig.pending ++ [runPipeline envSample] :=
  regenerate_guard_and_clean_slate loadedConfig envSample regenConfig
    (Step.regenerate loadedConfig envSample rfl)

/-- C8: in every reachable configuration at most one invocation is in
flight, a regeneration only ever fires when no invocation is in flight
(the control is disabled while loading), and any settling applies the
result of the unique in-flight invocation, which is therefore the
latest-triggered one; a stale earlier invocation can never settle after
a newer one. -/
theorem latest_invocation_wins (c : Config) (h : Reachable c) :
    c.pending.length ≤ 1 ∧
    (∀ env c', Step c (.regenerate env) c' → c.pending = []) ∧
    (∀ c', Step c .settle c' →
      ∃ r, c.pending = [r] ∧ c'.state = applySettle r c.state) := by
  have hinv := reachable_appInv c h
  refine ⟨hinv.1, ?_, ?_⟩
  · intro env c' hs
    cases hs with
    | regenerate _ hl =>
      by_contra hne
      have hload := (hinv.2.1 hne).1
      rw [hl] at hload
      exact Bool.noConfusion hload
  · intro c' hs
    cases hs with
    | settle r pre post hp =>
      have h1 := hinv.1
      cases pre with
      | cons x xs => rw [hp] at h1; simp at h1
      | nil =>
        cases post with
        | cons y ys => rw [hp] at h1; simp at h1
        | nil => exact ⟨r, by simpa using hp, rfl⟩

/-- Witness for latest_invocation_wins at the mounted configuration. -/
theorem latest_invocation_wins_witness :
    (mountConfig envSample).pending.length ≤ 1 :=
  (latest_invocation_wins (mountConfig envSample)
    (Reachable.mount envSample)).1

/-- C9: the code never checks the parsed idea count: any parsed array of
N ideas whose image tasks all succeed yields a successful invocation
with exactly N items, for any N.  In particular the settled, error-free
empty gallery is reachable. -/
theorem no_count_check :
    (∀ (env : Env) (ideas : List Json),
      env.textOutcome = .parsed (.arr ideas) →
      (∀ (i : Nat) (h : i < ideas.length),
        ∃ item, imageTask env i (ideas.get ⟨i, h⟩) = .ok item) →
      ∃ items, runPipeline env = .success items ∧
        items.length = ideas.length) ∧
    Reachable emptyLoadedConfig := by
  constructor
  · intro env ideas ht hall
    obtain ⟨items, hitems⟩ := mapImages_all_ok env ideas 0 (by
      intro i h
      simpa using hall i h)
    exact ⟨items, by simp [runPipeline, ht, hitems],
      mapImages_ok_length env ideas 0 items hitems⟩
  · exact Reachable.step (mountConfig envEmpty) .settle emptyLoadedConfig
      (Reachable.mount envEmpty)
      (Step.settle (mountConfig envEmpty) (runPipeline envEmpty) [] [] rfl)

/-- Witness for no_count_check at a two-idea environment: the invocation
succeeds with exactly two items even though the prompt asks for six. -/
theorem no_count_check_witness :
    ∃ items, runPipeline envTwo = .success items ∧
      items.length = [ideaSample, ideaSample2].length :=
  no_count_check.1 envTwo [ideaSample, ideaSample2] rfl (by
    intro i h
    have h2 : i < 2 := by simpa using h
    interval_cases i
    · exact ⟨itemSample, rfl⟩
    · exact ⟨itemSample2, rfl⟩)

/-- C10: a failed settling leaves the items exactly as they were (it
only sets the fixed error and clears loading); the emptiness of the
items in a failed state comes from the callers (the mount starts with an
empty list and the regenerate handler clears it); and every invocation
begins by resetting the error to none, so a prior failure message never
persists into a new loading phase. -/
theorem failure_preserves_items :
    (∀ s, applySettle .failure s =
        { s with error := some errorMessage, loading := false }) ∧
    (∀ env, (mountConfig env).state.innovations = []) ∧
    (∀ c env c', Step c (.regenerate env) c' →
      c'.state.innovations = []) ∧
    (∀ s, fetchStart s = { s with loading := true, error := none }) := by
  refine ⟨fun s => rfl, fun env => rfl, ?_, fun s => rfl⟩
  intro c env c' h
  cases h with
  | regenerate _ hl => rfl

/-- Witness for failure_preserves_items: a failed settling on the loaded
state keeps its item, and a concrete regenerate step clears the
items. -/
theorem failure_preserves_items_witness :
    applySettle .failure loadedConfig.state =
      { loadedConfig.state with
        error := some errorMessage, loading := false } ∧
    regenConfig.state.innovations = [] :=
  ⟨failure_preserves_items.1 loadedConfig.state,
   failure_preserves_items.2.2.1 loadedConfig envSample regenConfig
     (Step.regenerate loadedConfig envSample rfl)⟩
